import Mathlib

/-!
Shallow embedding of the MoodMorph evaluation harness:
`src/local/db_manager.py` (class DBManager) and
`src/local/llm_captures_evaluator.py` (class LLMCapturesEvaluator).

Conventions of the embedding:
* Python exceptions become an explicit `PyError` value threaded through
  `Except`; the constructors are exactly the exception types the modelled
  code paths can raise.
* The in-memory pandas DataFrame `df_evaluations` becomes an
  insertion-ordered association list from the integer row label (`test_id`)
  to a record of optional cells (`EvalRow`); a missing cell is `none`,
  mirroring pandas `NaN` fill on setting-with-enlargement.
* The SQLite database file becomes an insertion-ordered association list
  from table name to a table of `SQLValue` rows; the `db_path` given to
  `DBManager.__init__` identifies the file, so the state is the database
  itself.
* The external LLM completion endpoint (`litellm.completion`) is a
  parameter of the evaluator configuration: a function from the request the
  code builds to either a transport error or a response with content and
  token usage.  `evaluate_capture` additionally returns the list of
  completion requests it issued, so call-count properties can be stated.
* `pd.Timestamp.now()` is a parameter `now` of the configuration
  (nanoseconds since the epoch, a `Nat`).
-/

/-- Python exception values raised by the code paths of this repository.
The repository defines no exception classes of its own; these are the
library exception types its operations can let escape: KeyError and
TypeError from subscripting the decoded response, FileNotFoundError from
opening the image, JSONDecodeError from json.loads, the completion
client's API errors, pandas DatabaseError wrapping a failed SQL execution,
sqlite3 OperationalError from an unopenable database file, and ValueError
from to_sql's fail policy. -/
inductive PyError where
  | keyError (key : String)
  | typeError (msg : String)
  | fileNotFoundError (path : String)
  | jsonDecodeError (doc : String)
  | apiError (msg : String)
  | databaseError (msg : String)
  | operationalError (msg : String)
  | valueError (msg : String)
  deriving DecidableEq, Repr

/-- The Python class name of the exception, as a caller observes it in an
`except` clause or a traceback. -/
def PyError.typeName : PyError → String
  | .keyError _ => "KeyError"
  | .typeError _ => "TypeError"
  | .fileNotFoundError _ => "FileNotFoundError"
  | .jsonDecodeError _ => "JSONDecodeError"
  | .apiError _ => "APIError"
  | .databaseError _ => "DatabaseError"
  | .operationalError _ => "OperationalError"
  | .valueError _ => "ValueError"

/-! ### json.loads

`evaluate_capture` calls `json.loads` on the completion content and then
subscripts the result with string keys.  `json_loads` below parses the
full JSON grammar Python's `json.loads` accepts — objects with arbitrary
member values, arrays, strings with the standard escapes, numbers,
`true`/`false`/`null`, plus Python's default acceptance of `NaN`,
`Infinity` and `-Infinity` — and rejects everything else as a
`JSONDecodeError`.  A number is kept as its lexeme: the program never
consumes a numeric value, only the fact that it is not a dict.  A
`\uXXXX` escape decodes to that code unit (surrogate pairs are not
combined into one character). -/

/-- Characters `json.loads` skips as whitespace between tokens. -/
def jsonWs (c : Char) : Bool :=
  c == ' ' || c == '\t' || c == '\n' || c == '\r'

/-- Drops leading JSON whitespace. -/
def skipWs : List Char → List Char
  | c :: rest => if jsonWs c then skipWs rest else c :: rest
  | [] => []

/-- A decoded JSON document, as Python `json.loads` returns it: None, a
bool, a number, a str, a list, or a dict (members in insertion order;
duplicate keys collapse at lookup with the last binding winning). -/
inductive JValue where
  | null
  | bool (b : Bool)
  | num (lexeme : String)
  | str (s : String)
  | arr (elems : List JValue)
  | obj (members : List (String × JValue))

/-- The value of a hexadecimal digit. -/
def hexVal (c : Char) : Option Nat :=
  if c.isDigit then some (c.toNat - 48)
  else if 'a' ≤ c ∧ c ≤ 'f' then some (c.toNat - 87)
  else if 'A' ≤ c ∧ c ≤ 'F' then some (c.toNat - 55)
  else none

/-- Splits the longest run of ASCII digits off the input. -/
def digitRun : List Char → List Char × List Char
  | c :: rest =>
      if c.isDigit then
        let p := digitRun rest
        (c :: p.1, p.2)
      else ([], c :: rest)
  | [] => ([], [])

/-- The characters of a JSON string up to the closing quote (the opening
quote already consumed), decoding the standard escapes; `json.loads` in
its default strict mode rejects unescaped control characters. -/
def pStringBody : List Char → Option (List Char × List Char)
  | '"' :: rest => some ([], rest)
  | '\\' :: 'u' :: h1 :: h2 :: h3 :: h4 :: rest => do
      let d1 ← hexVal h1
      let d2 ← hexVal h2
      let d3 ← hexVal h3
      let d4 ← hexVal h4
      let p ← pStringBody rest
      pure (Char.ofNat (4096 * d1 + 256 * d2 + 16 * d3 + d4) :: p.1, p.2)
  | '\\' :: c :: rest => do
      let e ← match c with
        | '"' => some '"'
        | '\\' => some '\\'
        | '/' => some '/'
        | 'b' => some (Char.ofNat 8)
        | 'f' => some (Char.ofNat 12)
        | 'n' => some '\n'
        | 'r' => some '\r'
        | 't' => some '\t'
        | _ => none
      let p ← pStringBody rest
      pure (e :: p.1, p.2)
  | ['\\'] => none
  | c :: rest =>
      if c.toNat < 32 then none
      else do
        let p ← pStringBody rest
        pure (c :: p.1, p.2)
  | [] => none

/-- The integer part of a JSON number: a single 0, or a nonzero digit
followed by digits (leading zeros are rejected, as in json.loads). -/
def pIntPart : List Char → Option (List Char × List Char)
  | '0' :: rest => some (['0'], rest)
  | c :: rest =>
      if c.isDigit then
        let p := digitRun rest
        some (c :: p.1, p.2)
      else none
  | [] => none

/-- The optional fraction part of a JSON number. -/
def pFracPart : List Char → Option (List Char × List Char)
  | '.' :: c :: rest =>
      if c.isDigit then
        let p := digitRun rest
        some ('.' :: c :: p.1, p.2)
      else none
  | ['.'] => none
  | s => some ([], s)

/-- The optional exponent part of a JSON number. -/
def pExpPart : List Char → Option (List Char × List Char)
  | c :: rest =>
      if c == 'e' || c == 'E' then
        match rest with
        | '+' :: d :: r =>
            if d.isDigit then
              let p := digitRun r
              some (c :: '+' :: d :: p.1, p.2)
            else none
        | '-' :: d :: r =>
            if d.isDigit then
              let p := digitRun r
              some (c :: '-' :: d :: p.1, p.2)
            else none
        | d :: r =>
            if d.isDigit then
              let p := digitRun r
              some (c :: d :: p.1, p.2)
            else none
        | [] => none
      else some ([], c :: rest)
  | [] => some ([], [])

/-- The lexeme of a JSON number: optional minus sign, integer part,
optional fraction, optional exponent. -/
def pNumberLex (s : List Char) : Option (List Char × List Char) := do
  let (sgn, s1) := match s with
    | '-' :: r => (['-'], r)
    | _ => ([], s)
  let (ip, s2) ← pIntPart s1
  let (fp, s3) ← pFracPart s2
  let (ep, s4) ← pExpPart s3
  pure (sgn ++ ip ++ fp ++ ep, s4)

/-- Consumes an expected literal suffix. -/
def stripToken : List Char → List Char → Option (List Char)
  | [], s => some s
  | c :: tok, d :: s => if c == d then stripToken tok s else none
  | _ :: _, [] => none

/-- A parsing mode of the recursive-descent JSON parser: a value, the
members of an object (after its opening brace), or the elements of an
array (after its opening bracket). -/
inductive PMode where
  | value
  | members
  | elems

/-- The result a parsing mode produces. -/
inductive PResult where
  | v (val : JValue)
  | ms (members : List (String × JValue))
  | es (elems : List JValue)

/-- One step of the recursive-descent JSON parser.  `fuel` bounds the
recursion depth; twice the input length plus two always suffices, because
the parser consumes at least one character per two nested calls. -/
def pStep : Nat → PMode → List Char → Option (PResult × List Char)
  | 0, _, _ => none
  | fuel + 1, .value, s =>
    match skipWs s with
    | '{' :: rest =>
      (match skipWs rest with
       | '}' :: r2 => some (.v (.obj []), r2)
       | r2 =>
         match pStep fuel .members r2 with
         | some (.ms ms, r3) => some (.v (.obj ms), r3)
         | _ => none)
    | '[' :: rest =>
      (match skipWs rest with
       | ']' :: r2 => some (.v (.arr []), r2)
       | r2 =>
         match pStep fuel .elems r2 with
         | some (.es es, r3) => some (.v (.arr es), r3)
         | _ => none)
    | '"' :: rest =>
      (match pStringBody rest with
       | some (cs, r2) => some (.v (.str (String.mk cs)), r2)
       | none => none)
    | 't' :: rest =>
      (match stripToken ['r', 'u', 'e'] rest with
       | some r2 => some (.v (.bool true), r2)
       | none => none)
    | 'f' :: rest =>
      (match stripToken ['a', 'l', 's', 'e'] rest with
       | some r2 => some (.v (.bool false), r2)
       | none => none)
    | 'n' :: rest =>
      (match stripToken ['u', 'l', 'l'] rest with
       | some r2 => some (.v .null, r2)
       | none => none)
    | 'N' :: rest =>
      (match stripToken ['a', 'N'] rest with
       | some r2 => some (.v (.num "NaN"), r2)
       | none => none)
    | 'I' :: rest =>
      (match stripToken ['n', 'f', 'i', 'n', 'i', 't', 'y'] rest with
       | some r2 => some (.v (.num "Infinity"), r2)
       | none => none)
    | '-' :: 'I' :: rest =>
      (match stripToken ['n', 'f', 'i', 'n', 'i', 't', 'y'] rest with
       | some r2 => some (.v (.num "-Infinity"), r2)
       | none => none)
    | s2 =>
      (match pNumberLex s2 with
       | some (lx, r2) => some (.v (.num (String.mk lx)), r2)
       | none => none)
  | fuel + 1, .members, s =>
    (match skipWs s with
     | '"' :: rest =>
       (match pStringBody rest with
        | some (kcs, r2) =>
          (match skipWs r2 with
           | ':' :: r3 =>
             (match pStep fuel .value r3 with
              | some (.v val, r4) =>
                (match skipWs r4 with
                 | ',' :: r5 =>
                   (match pStep fuel .members r5 with
                    | some (.ms ms, r6) => some (.ms ((String.mk kcs, val) :: ms), r6)
                    | _ => none)
                 | '}' :: r5 => some (.ms [(String.mk kcs, val)], r5)
                 | _ => none)
              | _ => none)
           | _ => none)
        | none => none)
     | _ => none)
  | fuel + 1, .elems, s =>
    (match pStep fuel .value s with
     | some (.v val, r2) =>
       (match skipWs r2 with
        | ',' :: r3 =>
          (match pStep fuel .elems r3 with
           | some (.es es, r4) => some (.es (val :: es), r4)
           | _ => none)
        | ']' :: r3 => some (.es [val], r3)
        | _ => none)
     | _ => none)

/-- Python `json.loads`: parses one complete JSON document (trailing
whitespace allowed); any other input raises `json.JSONDecodeError`. -/
def json_loads (doc : String) : Except PyError JValue :=
  match pStep (2 * doc.length + 2) .value doc.toList with
  | some (.v val, rest) =>
      if (skipWs rest).isEmpty then .ok val else .error (.jsonDecodeError doc)
  | _ => .error (.jsonDecodeError doc)

/-- Whether a number lexeme denotes a Python float (or NaN/Infinity)
rather than an int. -/
def numIsFloat (lexeme : String) : Bool :=
  lexeme.toList.any (fun c => c == '.' || c == 'e' || c == 'E' || c == 'N' || c == 'I')

/-- Python subscripting `response[key]` with a string key, as
`evaluate_capture` performs on the decoded JSON: on a dict, a lookup (a
JSON object with duplicate keys keeps the last binding, so the reversed
member list is searched; KeyError when the key is absent); on every
non-dict value, a TypeError, as in Python. -/
def pySubscript (v : JValue) (key : String) : Except PyError JValue :=
  match v with
  | .obj ms =>
      match ms.reverse.find? (fun kv => kv.1 == key) with
      | some kv => .ok kv.2
      | none => .error (.keyError key)
  | .str _ => .error (.typeError "string indices must be integers")
  | .arr _ => .error (.typeError "list indices must be integers or slices, not str")
  | .num lexeme => .error (.typeError
      ((if numIsFloat lexeme then "'float'" else "'int'") ++ " object is not subscriptable"))
  | .bool _ => .error (.typeError "'bool' object is not subscriptable")
  | .null => .error (.typeError "'NoneType' object is not subscriptable")

/-- The string a results cell stores for a response member.  The requested
response schema types both required members as strings, and a string
member is stored as itself.  (Python stores a schema-violating non-string
member as the decoded Python object — an int, float, bool, None, list or
dict — which the string-typed cell cannot carry; it records a placeholder
rendering instead.  No property verified here reads the cell on that
path.) -/
def jvalueCellText : JValue → String
  | .str s => s
  | .null => "None"
  | .bool true => "True"
  | .bool false => "False"
  | .num lexeme => lexeme
  | .arr _ => "[...]"
  | .obj _ => "\x7b...\x7d"

/-! ### base64.b64encode -/

/-- The standard base64 alphabet. -/
def base64Alphabet : List Char :=
  "ABCDEFGHIJKLMNOPQRSTUVWXYZabcdefghijklmnopqrstuvwxyz0123456789+/".toList

/-- The base64 digit for a 6-bit value. -/
def b64CharAt (n : Nat) : Char := base64Alphabet.getD n 'A'

/-- Encodes a byte list three bytes at a time, padding the final partial
group with `=` as `base64.b64encode` does. -/
def b64EncodeChunks : List Nat → List Char
  | b0 :: b1 :: b2 :: rest =>
      let w := (b0 % 256) * 65536 + (b1 % 256) * 256 + (b2 % 256)
      b64CharAt (w / 262144 % 64) :: b64CharAt (w / 4096 % 64) ::
        b64CharAt (w / 64 % 64) :: b64CharAt (w % 64) :: b64EncodeChunks rest
  | [b0, b1] =>
      let w := (b0 % 256) * 1024 + (b1 % 256) * 4
      [b64CharAt (w / 4096 % 64), b64CharAt (w / 64 % 64), b64CharAt (w % 64), '=']
  | [b0] =>
      let w := (b0 % 256) * 16
      [b64CharAt (w / 64 % 64), b64CharAt (w % 64), '=', '=']
  | [] => []

/-- `base64.b64encode(data).decode('utf-8')` on the file's bytes. -/
def b64encode (bytes : List Nat) : String := String.mk (b64EncodeChunks bytes)

/-! ### The evaluator: LLMCapturesEvaluator -/

/-- One row of the caller-supplied `df_captures` table: a relative image
`path` and the ground-truth `emotion` label. -/
structure CaptureRec where
  path : String
  emotion : String
  deriving DecidableEq, Repr

/-- The file system visible to `_encode_image`: path to contents (bytes). -/
abbrev FileSystem := List (String × List Nat)

/-- Looks a path up in the file system. -/
def fsLookup (fs : FileSystem) (p : String) : Option (List Nat) :=
  (fs.find? (fun f => f.1 == p)).map (fun f => f.2)

/-- The completion request `_process_capture` builds: the model, the fixed
temperature, the single user message's text part and image-URL part, and
the required fields of the requested JSON response schema. -/
structure CompletionRequest where
  model : String
  temperature : Nat
  promptText : String
  imageUrl : String
  schemaRequired : List String
  deriving DecidableEq, Repr

/-- What `litellm.completion` returns, as consumed by `_process_capture`:
`completion.choices[0].message.content` and `completion.usage.total_tokens`. -/
structure CompletionResponse where
  content : String
  total_tokens : Int
  deriving DecidableEq, Repr

/-- The immutable per-driver data of `LLMCapturesEvaluator.__init__`,
together with the external collaborators: the file system, the completion
endpoint, and the current clock reading used for `pd.Timestamp.now()`. -/
structure EvaluatorConfig where
  model : String
  df_captures : List (Int × CaptureRec)
  captures_path : String
  fs : FileSystem
  endpoint : CompletionRequest → Except PyError CompletionResponse
  now : Nat

/-- One row of `df_evaluations`; a cell is `none` when pandas would hold
`NaN` there (setting-with-enlargement fills unset cells with `NaN`). -/
structure EvalRow where
  expected_emotion : Option String
  identified_emotion : Option String
  key_visual_cues : Option String
  tokens_used : Option Int
  evaluator : Option String
  timestamp : Option Nat
  deriving DecidableEq, Repr

/-- The all-missing row a setting-with-enlargement starts from. -/
def EvalRow.emptyRow : EvalRow := ⟨none, none, none, none, none, none⟩

/-- The in-memory results table `df_evaluations`: insertion-ordered rows
labelled by `test_id`. -/
abbrev DataFrame := List (Int × EvalRow)

/-- pandas `df.loc[idx, col] = value`: updates the cell of the row labelled
`idx` when present, otherwise appends a new row whose other cells are
missing (setting-with-enlargement). -/
def locSet (df : DataFrame) (idx : Int) (upd : EvalRow → EvalRow) : DataFrame :=
  if df.any (fun r => r.1 == idx) then
    df.map (fun r => if r.1 == idx then (r.1, upd r.2) else r)
  else df ++ [(idx, upd EvalRow.emptyRow)]

/-- pandas `self._df_captures.loc[idx]`: the capture row labelled `idx`;
raises `KeyError` on a missing label. -/
def capturesLoc (caps : List (Int × CaptureRec)) (idx : Int) :
    Except PyError CaptureRec :=
  match caps.find? (fun r => r.1 == idx) with
  | some r => .ok r.2
  | none => .error (.keyError (toString idx))

/-- The module constant `_prompt` of `llm_captures_evaluator.py`: a
triple-quoted string, so it begins and ends with a newline, and its first
line ends with a space before the line break. -/
def _prompt : String :=
  "\nYou are presented with the peak frame from a 3D character animation sequence. Based on facial cues visible in this single frame, identify the most likely emotions being expressed, using Ekman's seven universal emotions as reference (happiness, sadness, anger, fear, surprise, disgust, contempt). \nDescribe the key visual cues that support your interpretation.\n"

/-- The `required` field list of the module constant `_output_schema`. -/
def outputSchemaRequired : List String := ["emotion", "key_visual_cues"]

/-- The image URL placed in the message:
`f"data:image/jpeg;base64,{base64_image}"` — the MIME type is hardcoded. -/
def imageUrlOf (base64_image : String) : String :=
  "data:image/jpeg;base64," ++ base64_image

/-- `LLMCapturesEvaluator._encode_image`: opens the file (raising
`FileNotFoundError` when it is absent) and returns
`base64.b64encode(image_file.read()).decode('utf-8')`. -/
def _encode_image (fs : FileSystem) (image_path : String) :
    Except PyError String :=
  match fsLookup fs image_path with
  | some bytes => .ok (b64encode bytes)
  | none => .error (.fileNotFoundError image_path)

/-- `LLMCapturesEvaluator._process_capture`: encodes the image, then issues
exactly one `litellm.completion` call with temperature 1, the fixed prompt,
the inline JPEG data URI, and the fixed response schema; returns the
completion's content and total token count.  The second component is the
list of completion requests issued (for call-count properties). -/
def _process_capture (cfg : EvaluatorConfig) (capture_path : String) :
    Except PyError (String × Int) × List CompletionRequest :=
  match _encode_image cfg.fs capture_path with
  | .error e => (.error e, [])
  | .ok base64_image =>
    let req : CompletionRequest :=
      { model := cfg.model
        temperature := 1
        promptText := _prompt
        imageUrl := imageUrlOf base64_image
        schemaRequired := outputSchemaRequired }
    match cfg.endpoint req with
    | .error e => (.error e, [req])
    | .ok resp => (.ok (resp.content, resp.total_tokens), [req])

/-- `LLMCapturesEvaluator.evaluate_capture`, line for line: look the capture
up, process it, `json.loads` the content, then perform the six sequential
`.loc[idx, col] = value` writes.  Each Python line evaluates its right-hand
side before writing, so a failing subscript `response['emotion']` — a
KeyError when the object lacks the field, a TypeError when the document is
valid JSON but not an object — aborts only after the earlier lines' writes
have already mutated the table.  Returns the result
(`self.df_evaluations.loc[idx]` on success), the final table, and the
completion requests issued. -/
def evaluate_capture (cfg : EvaluatorConfig) (df : DataFrame) (idx : Int) :
    Except PyError EvalRow × DataFrame × List CompletionRequest :=
  match capturesLoc cfg.df_captures idx with
  | .error e => (.error e, df, [])
  | .ok rec =>
    match _process_capture cfg (cfg.captures_path ++ "/" ++ rec.path) with
    | (.error e, reqs) => (.error e, df, reqs)
    | (.ok (content, tokens), reqs) =>
      match json_loads content with
      | .error e => (.error e, df, reqs)
      | .ok response =>
        let df := locSet df idx (fun r => { r with expected_emotion := some rec.emotion })
        match pySubscript response "emotion" with
        | .error e => (.error e, df, reqs)
        | .ok emo =>
          let df := locSet df idx (fun r => { r with identified_emotion := some (jvalueCellText emo) })
          match pySubscript response "key_visual_cues" with
          | .error e => (.error e, df, reqs)
          | .ok cues =>
            let df := locSet df idx (fun r => { r with key_visual_cues := some (jvalueCellText cues) })
            let df := locSet df idx (fun r => { r with tokens_used := some tokens })
            let df := locSet df idx (fun r => { r with evaluator := some cfg.model })
            let df := locSet df idx (fun r => { r with timestamp := some cfg.now })
            match df.find? (fun r => r.1 == idx) with
            | some r => (.ok r.2, df, reqs)
            | none => (.error (.keyError (toString idx)), df, reqs)

/-! ### The persistence layer: DBManager over sqlite3 and pandas sql I/O -/

/-- A value as stored by SQLite: storage classes NULL, INTEGER and TEXT are
the ones the modelled code can produce. -/
inductive SQLValue where
  | null
  | integer (n : Int)
  | text (s : String)
  deriving DecidableEq, Repr

/-- One table in the database file: column names and rows of stored values. -/
structure SQLTable where
  columns : List String
  rows : List (List SQLValue)
  deriving DecidableEq, Repr

/-- The SQLite database file: name-to-table, in creation order (the
`sqlite_master` catalog order for this model). -/
abbrev Database := List (String × SQLTable)

/-- Looks a table up by name. -/
def dbGet (db : Database) (name : String) : Option SQLTable :=
  (db.find? (fun e => e.1 == name)).map (fun e => e.2)

/-- Replaces the table of that name, or appends a new one. -/
def dbSet (db : Database) (name : String) (t : SQLTable) : Database :=
  if db.any (fun e => e.1 == name) then
    db.map (fun e => if e.1 == name then (name, t) else e)
  else db ++ [(name, t)]

/-- A pandas cell as the modelled frames hold it: missing (`NaN`/`NaT`), a
Python int, a string, or a `pd.Timestamp` (nanoseconds since the epoch). -/
inductive PdValue where
  | nan
  | int (n : Int)
  | str (s : String)
  | timestamp (t : Nat)
  deriving DecidableEq, Repr

/-- A pandas DataFrame with its index already reset to a column (the shape
`save_to_db` hands to `DBManager.save_dataframe`). -/
structure PdFrame where
  columns : List String
  rows : List (List PdValue)
  deriving DecidableEq, Repr

/-- A pandas DataFrame together with its promoted index (the shape
`load_dataframe` returns after `set_index`). -/
structure IndexedFrame where
  indexName : String
  indexVals : List PdValue
  columns : List String
  rows : List (List PdValue)
  deriving DecidableEq, Repr

/-- The sqlite column types pandas declares for the modelled value
population. -/
inductive SQLColType where
  | integer
  | text
  | timestampTy
  deriving DecidableEq, Repr

/-- pandas `SQLiteTable._sql_type_name`: the declared sqlite column type is
inferred from the column's non-missing values (`lib.infer_dtype` with
`skipna=True`): all integers give INTEGER, all datetimes give TIMESTAMP,
and strings, an empty column, or a mixed column give TEXT. -/
def inferColType (col : List PdValue) : SQLColType :=
  let nonNan := col.filter (fun v => !(v == PdValue.nan))
  if nonNan.isEmpty then .text
  else if nonNan.all (fun v => match v with | .int _ => true | _ => false) then
    .integer
  else if nonNan.all (fun v => match v with | .timestamp _ => true | _ => false) then
    .timestampTy
  else .text

/-- An injective stand-in for the ISO 8601 text the sqlite3 layer stores for
a `pd.Timestamp` (pandas renders datetime cells to text before insertion;
the rendered text is not numeric, so it is stored as TEXT under any column
affinity). -/
def timestampText (t : Nat) : String := "ts:" ++ toString t

/-- Storing one cell under a declared column type: missing becomes NULL,
datetimes are rendered to text, an integer is stored as INTEGER unless the
column was declared TEXT (TEXT affinity converts numbers to their text
form), and a string is stored as TEXT.  (Numeric-looking text arriving in
an INTEGER column would be converted by affinity, but type inference never
declares INTEGER for a column holding a string.) -/
def storeCell (ty : SQLColType) (v : PdValue) : SQLValue :=
  match v with
  | .nan => .null
  | .timestamp t => .text (timestampText t)
  | .int n => match ty with
    | .text => .text (toString n)
    | _ => .integer n
  | .str s => .text s

/-- The column `j` of a frame. -/
def colOf (f : PdFrame) (j : Nat) : List PdValue :=
  f.rows.map (fun r => r.getD j .nan)

/-- Creates the stored table for a frame: infer each column's declared
type, then store every cell under it. -/
def frameToTable (f : PdFrame) : SQLTable :=
  let tys := (List.range f.columns.length).map (fun j => inferColType (colOf f j))
  { columns := f.columns
    rows := f.rows.map (fun r =>
      (List.range f.columns.length).map (fun j =>
        storeCell (tys.getD j .text) (r.getD j .nan))) }

/-- The `if_exists` argument of `DataFrame.to_sql` /
`DBManager.save_dataframe` (Python strings 'replace', 'append', 'fail'). -/
inductive IfExists where
  | replace
  | append
  | fail
  deriving DecidableEq, Repr

/-- `DataFrame.to_sql(table_name, conn, if_exists=..., index=False)` against
a sqlite3 connection: a fresh table is created when absent; otherwise
replace drops and recreates it, append adds the new rows after the existing
ones, and fail raises `ValueError`. -/
def to_sql (f : PdFrame) (name : String) (ife : IfExists) (db : Database) :
    Except PyError Database :=
  match dbGet db name with
  | none => .ok (dbSet db name (frameToTable f))
  | some old =>
    match ife with
    | .replace => .ok (dbSet db name (frameToTable f))
    | .append =>
        .ok (dbSet db name
          { columns := old.columns, rows := old.rows ++ (frameToTable f).rows })
    | .fail => .error (.valueError ("Table '" ++ name ++ "' already exists."))

/-- The default of the `if_exists` parameter in the Python signature
`save_dataframe(self, df, table_name, if_exists='replace', index=False)`. -/
def save_dataframe_default_if_exists : IfExists := .replace

/-- `DBManager.save_dataframe` with `index=False` (the default, and the
only mode the repository exercises; the frames passed in carry their index
already reset to a column). -/
def save_dataframe (db : Database) (df : PdFrame) (table_name : String)
    (if_exists : IfExists) : Except PyError Database :=
  to_sql df table_name if_exists db

/-- The SQL text `pd.read_sql` executes inside `load_dataframe`: the
f-string `f"SELECT * FROM {table_name}"` — plain string interpolation of
the table name, with no quoting, escaping or validation. -/
def loadQuery (table_name : String) : String :=
  "SELECT * FROM " ++ table_name

/-- Reading one stored value back into a pandas cell: NULL becomes missing,
INTEGER an int, TEXT a str. -/
def readCell : SQLValue → PdValue
  | .null => .nan
  | .integer n => .int n
  | .text s => .str s

/-- `pd.read_sql` over the statement `loadQuery table_name`: all rows of
the named table, each stored value read back via `readCell`.  When the
table does not exist, the cursor raises sqlite3.OperationalError("no such
table: ..."), and pandas wraps it into pandas.errors.DatabaseError
("Execution failed on sql '...': no such table: ...") — the wrapper is
what the caller observes.  (The engine's behavior on a statement that is
not a single well-formed SELECT — e.g. after interpolating a name
containing SQL syntax — is outside this model; the statement text itself
is exposed by `load_dataframe`.) -/
def read_sql (db : Database) (table_name : String) : Except PyError PdFrame :=
  match dbGet db table_name with
  | none => .error (.databaseError
      ("Execution failed on sql '" ++ loadQuery table_name ++ "': no such table: " ++
        table_name))
  | some t =>
    .ok { columns := t.columns
          rows := t.rows.map (fun r => r.map readCell) }

/-- pandas `df.set_index(index_col, inplace=True)`: promotes the named
column to the row identifier; raises `KeyError` when the column is absent. -/
def set_index (f : PdFrame) (index_col : String) :
    Except PyError IndexedFrame :=
  match f.columns.findIdx? (fun c => c == index_col) with
  | none => .error (.keyError index_col)
  | some j =>
    .ok { indexName := index_col
          indexVals := f.rows.map (fun r => r.getD j .nan)
          columns := f.columns.eraseIdx j
          rows := f.rows.map (fun r => r.eraseIdx j) }

/-- The default of the `index_col` parameter in the Python signature
`load_dataframe(self, table_name, index_col='id')`. -/
def load_dataframe_default_index_col : String := "id"

/-- `DBManager.load_dataframe`: executes `loadQuery table_name` via
`pd.read_sql` and promotes `index_col`.  The first component is the SQL
statement text handed to the engine. -/
def load_dataframe (db : Database) (table_name : String) (index_col : String) :
    String × Except PyError IndexedFrame :=
  (loadQuery table_name,
   match read_sql db table_name with
   | .error e => .error e
   | .ok f => set_index f index_col)

/-- `DBManager.list_tables`:
`SELECT name FROM sqlite_master WHERE type='table'` — the table names in
catalog order. -/
def list_tables (db : Database) : List String := db.map (fun e => e.1)

/-! ### Connection lifecycle

Each DBManager operation runs its body inside
`with sqlite3.connect(self._db_path) as conn:`.  Per the Python sqlite3
documentation, a connection used as a context manager commits the pending
transaction on normal exit and rolls it back on an exception — it does NOT
close the connection; the connection object is only released when the local
variable is finalized after the call returns.  The traces below record the
connection events of each operation, with `bodyFails` telling whether the
body raised. -/

/-- Events observable on the sqlite3 connection of one operation. -/
inductive ConnEvent where
  | connOpened
  | committed
  | rolledBack
  | connClosed
  deriving DecidableEq, Repr

/-- Connection events of `save_dataframe`: open, then the body runs
`df.to_sql` followed by an explicit `conn.commit()`, then the context
manager commits (success) or rolls back (body raised). -/
def save_dataframe_events (bodyFails : Bool) : List ConnEvent :=
  if bodyFails then [.connOpened, .rolledBack]
  else [.connOpened, .committed, .committed]

/-- Connection events of `load_dataframe`: open, run the query and
`set_index`, then the context manager commits or rolls back. -/
def load_dataframe_events (bodyFails : Bool) : List ConnEvent :=
  if bodyFails then [.connOpened, .rolledBack]
  else [.connOpened, .committed]

/-- Connection events of `list_tables` (its body cannot raise on a
reachable database: the catalog query is always valid). -/
def list_tables_events : List ConnEvent := [.connOpened, .committed]

/-! ### save_to_db and the driver's operations -/

/-- The column list of `df_evaluations` fixed in `__init__`. -/
def evalColumns : List String :=
  ["expected_emotion", "identified_emotion", "key_visual_cues",
   "tokens_used", "evaluator", "timestamp"]

/-- An optional string cell as a pandas value. -/
def optStr : Option String → PdValue
  | some s => .str s
  | none => .nan

/-- An optional int cell as a pandas value. -/
def optInt : Option Int → PdValue
  | some n => .int n
  | none => .nan

/-- An optional timestamp cell as a pandas value. -/
def optTs : Option Nat → PdValue
  | some t => .timestamp t
  | none => .nan

/-- The cells of one `df_evaluations` row, in column order. -/
def rowCells (r : EvalRow) : List PdValue :=
  [optStr r.expected_emotion, optStr r.identified_emotion,
   optStr r.key_visual_cues, optInt r.tokens_used,
   optStr r.evaluator, optTs r.timestamp]

/-- `self.df_evaluations['timestamp'].astype('datetime64[ns]')` on one
cell: the cast changes the column's storage dtype, not the cell's value — a
`pd.Timestamp` maps to the same instant and a missing value stays missing
(`NaN` becomes `NaT`), so on the value level the cell is unchanged. -/
def astype_datetime64 (cell : Option Nat) : Option Nat := cell

/-- The in-place timestamp-column normalization performed by `save_to_db`. -/
def normalizeTimestampCol (df : DataFrame) : DataFrame :=
  df.map (fun r => (r.1, { r.2 with timestamp := astype_datetime64 r.2.timestamp }))

/-- `self.df_evaluations.reset_index()`: the `test_id` index becomes the
first column. -/
def reset_index (df : DataFrame) : PdFrame :=
  { columns := "test_id" :: evalColumns
    rows := df.map (fun r => PdValue.int r.1 :: rowCells r.2) }

/-- The defaults of the Python signature
`save_to_db(self, db, table_name='evaluations', override_rule='append')`. -/
def save_to_db_default_table_name : String := "evaluations"

/-- The default conflict policy of `save_to_db` (passed through to
`save_dataframe` as its `if_exists`). -/
def save_to_db_default_override_rule : IfExists := .append

/-- `LLMCapturesEvaluator.save_to_db`: normalizes the timestamp column in
place, resets the index, and delegates to `DBManager.save_dataframe` with
the given override rule.  Returns the (possibly rewritten) results table
alongside the database outcome. -/
def save_to_db (df : DataFrame) (db : Database) (table_name : String)
    (override_rule : IfExists) : DataFrame × Except PyError Database :=
  let df := normalizeTimestampCol df
  (df, save_dataframe db (reset_index df) table_name override_rule)

/-- One operation a caller can run against the Evaluation Driver. -/
inductive DriverOp where
  | evalOp (cfg : EvaluatorConfig) (idx : Int)
  | saveOp (db : Database) (table_name : String) (rule : IfExists)

/-- The results table after one driver operation. -/
def stepDf (df : DataFrame) : DriverOp → DataFrame
  | .evalOp cfg idx => (evaluate_capture cfg df idx).2.1
  | .saveOp db t r => (save_to_db df db t r).1

/-- The results table after a sequence of driver operations, starting from
the empty table `__init__` creates. -/
def runOps (ops : List DriverOp) : DataFrame :=
  ops.foldl stepDf []

/-- The indices passed to the evaluate operations of a trace. -/
def evalIndices (ops : List DriverOp) : List Int :=
  ops.filterMap (fun op => match op with
    | .evalOp _ i => some i
    | .saveOp _ _ _ => none)

/-- The relation between the table before and after (a prefix of) an
`evaluate_capture` call at index `idx`: keys grow only by `idx`, key
distinctness is preserved, at most one row is added, and a changed table
contains a row for `idx`. -/
def TableStep (idx : Int) (df df' : DataFrame) : Prop :=
  (∀ x ∈ df'.map Prod.fst, x ∈ df.map Prod.fst ∨ x = idx) ∧
  ((df.map Prod.fst).Nodup → (df'.map Prod.fst).Nodup) ∧
  df'.length ≤ df.length + 1 ∧
  (idx ∈ df'.map Prod.fst ∨ df' = df)

/-! ### Concrete fixtures used by witnesses and counterexamples -/

/-- A one-capture configuration whose stubbed endpoint returns a
schema-conforming JSON object. -/
def cfgJsonOK : EvaluatorConfig :=
  { model := "gpt-test"
    df_captures := [(0, ⟨"img.png", "happiness"⟩)]
    captures_path := "caps"
    fs := [("caps/img.png", [1, 2, 3])]
    endpoint := fun _ => .ok ⟨"\x7b\"emotion\":\"joy\",\"key_visual_cues\":\"smile\"\x7d", 7⟩
    now := 42 }

/-- The same configuration with a stubbed endpoint returning JSON that
lacks the required `emotion` field. -/
def cfgMissingField : EvaluatorConfig :=
  { cfgJsonOK with endpoint := fun _ => .ok ⟨"\x7b\"key_visual_cues\":\"smile\"\x7d", 7⟩ }

/-- The same configuration with a stubbed endpoint returning non-JSON
content. -/
def cfgNotJson : EvaluatorConfig :=
  { cfgJsonOK with endpoint := fun _ => .ok ⟨"oops not json", 7⟩ }

/-- The same configuration with a stubbed endpoint returning a top-level
JSON number: valid JSON, but not an object, so subscripting it raises
TypeError. -/
def cfgNotObject : EvaluatorConfig :=
  { cfgJsonOK with endpoint := fun _ => .ok ⟨"5", 7⟩ }

/-- The same configuration with an empty file system: the capture's image
file does not exist under the captures root. -/
def cfgMissingFile : EvaluatorConfig :=
  { cfgJsonOK with fs := [] }

/-- The result row a successful evaluation under `cfgJsonOK` writes. -/
def rowOK : EvalRow :=
  ⟨some "happiness", some "joy", some "smile", some 7, some "gpt-test", some 42⟩

/-- The completion request `cfgJsonOK` causes to be issued. -/
def reqOK : CompletionRequest :=
  { model := "gpt-test"
    temperature := 1
    promptText := _prompt
    imageUrl := imageUrlOf (b64encode [1, 2, 3])
    schemaRequired := outputSchemaRequired }

/-- A database already holding an `evaluations` table with one row. -/
def preDbOneRow : Database :=
  [("evaluations", frameToTable (reset_index [(0, rowOK)]))]

/-- A one-row results table distinct from the pre-existing one. -/
def dfNewRow : DataFrame :=
  [(3, ⟨some "sadness", none, none, none, none, none⟩)]

/-- Row count of the `evaluations` table of a save outcome. -/
def savedRowCount (res : Except PyError Database) : Option Nat :=
  match res with
  | .ok db => (dbGet db "evaluations").map (fun t => t.rows.length)
  | .error _ => none

/-! ### Spec-side definitions for refinement comparisons -/

/-- Modelled from the spec: the fixed prompt text exactly as the spec and
claim C3 quote it — a single line, one space between the sentences, no
leading or trailing newline. -/
def specPromptText : String :=
  "You are presented with the peak frame from a 3D character animation sequence. Based on facial cues visible in this single frame, identify the most likely emotions being expressed, using Ekman's seven universal emotions as reference (happiness, sadness, anger, fear, surprise, disgust, contempt). Describe the key visual cues that support your interpretation."

/-- The first sentence group of the prompt (shared by spec text and code
text). -/
def promptSentenceA : String :=
  "You are presented with the peak frame from a 3D character animation sequence. Based on facial cues visible in this single frame, identify the most likely emotions being expressed, using Ekman's seven universal emotions as reference (happiness, sadness, anger, fear, surprise, disgust, contempt)."

/-- The second sentence of the prompt. -/
def promptSentenceB : String :=
  "Describe the key visual cues that support your interpretation."

/-- The row claim C6 expects `load_dataframe` to return for a stored
evaluation row: every cell as written, with the timestamp cell normalized
to its stored text form. -/
def loadedRowOf (r : EvalRow) : List PdValue :=
  [optStr r.expected_emotion, optStr r.identified_emotion,
   optStr r.key_visual_cues, optInt r.tokens_used, optStr r.evaluator,
   match r.timestamp with
   | some t => PdValue.str (timestampText t)
   | none => PdValue.nan]

/-! ### Helper lemmas about locSet and evaluate_capture's table effect -/

theorem any_eq_true_of_mem_keys {df : DataFrame} {idx : Int}
    (h : idx ∈ df.map Prod.fst) : df.any (fun r => r.1 == idx) = true := by
  rcases List.mem_map.mp h with ⟨r, hr, hf⟩
  exact List.any_eq_true.mpr ⟨r, hr, by simp [hf]⟩

theorem not_mem_keys_of_any_eq_false {df : DataFrame} {idx : Int}
    (h : ¬ df.any (fun r => r.1 == idx) = true) : idx ∉ df.map Prod.fst :=
  fun hmem => h (any_eq_true_of_mem_keys hmem)

theorem keys_locSet (df : DataFrame) (idx : Int) (f : EvalRow → EvalRow) :
    (locSet df idx f).map Prod.fst =
      if df.any (fun r => r.1 == idx) then df.map Prod.fst
      else df.map Prod.fst ++ [idx] := by
  unfold locSet
  by_cases h : df.any (fun r => r.1 == idx) = true
  · rw [if_pos h, if_pos h, List.map_map]
    refine List.map_congr_left ?_
    intro r _
    simp only [Function.comp_apply]
    split <;> rfl
  · rw [if_neg h, if_neg h, List.map_append]
    rfl

theorem mem_keys_locSet {df : DataFrame} {idx x : Int} {f : EvalRow → EvalRow}
    (h : x ∈ (locSet df idx f).map Prod.fst) :
    x ∈ df.map Prod.fst ∨ x = idx := by
  rw [keys_locSet] at h
  split at h
  · exact .inl h
  · rcases List.mem_append.mp h with h | h
    · exact .inl h
    · exact .inr (List.mem_singleton.mp h)

theorem nodup_keys_locSet {df : DataFrame} {idx : Int} {f : EvalRow → EvalRow}
    (h : (df.map Prod.fst).Nodup) :
    ((locSet df idx f).map Prod.fst).Nodup := by
  rw [keys_locSet]
  split
  · exact h
  · next hneg =>
    have hnm : idx ∉ df.map Prod.fst := not_mem_keys_of_any_eq_false hneg
    simp [List.nodup_append, h, hnm]

theorem idx_mem_keys_locSet (df : DataFrame) (idx : Int) (f : EvalRow → EvalRow) :
    idx ∈ (locSet df idx f).map Prod.fst := by
  rw [keys_locSet]
  split
  · next h =>
    rcases List.any_eq_true.mp h with ⟨r, hr, hbeq⟩
    exact List.mem_map.mpr ⟨r, hr, by simpa using hbeq⟩
  · simp

theorem length_locSet_le (df : DataFrame) (idx : Int) (f : EvalRow → EvalRow) :
    (locSet df idx f).length ≤ df.length + 1 := by
  unfold locSet
  split
  · simp
  · simp

theorem length_locSet_of_mem {df : DataFrame} {idx : Int} (f : EvalRow → EvalRow)
    (h : idx ∈ df.map Prod.fst) : (locSet df idx f).length = df.length := by
  unfold locSet
  rw [if_pos (any_eq_true_of_mem_keys h)]
  simp

theorem tableStep_refl (idx : Int) (df : DataFrame) : TableStep idx df df :=
  ⟨fun _ hx => .inl hx, id, Nat.le_succ _, .inr rfl⟩

theorem tableStep_locSet {idx : Int} {df d : DataFrame}
    (h : TableStep idx df d) (f : EvalRow → EvalRow) :
    TableStep idx df (locSet d idx f) := by
  obtain ⟨hsub, hnd, hlen, hmem⟩ := h
  refine ⟨?_, ?_, ?_, .inl (idx_mem_keys_locSet d idx f)⟩
  · intro x hx
    rcases mem_keys_locSet hx with hx | hx
    · exact hsub x hx
    · exact .inr hx
  · exact fun h0 => nodup_keys_locSet (hnd h0)
  · rcases hmem with hm | rfl
    · rw [length_locSet_of_mem f hm]; exact hlen
    · exact length_locSet_le _ idx f


theorem pySubscript_error {v : JValue} {key : String} {e : PyError}
    (h : pySubscript v key = .error e) :
    e = .keyError key ∨ ∃ m, e = .typeError m := by
  unfold pySubscript at h
  split at h
  · split at h
    · exact Except.noConfusion h
    · cases h
      exact .inl rfl
  · cases h
    exact .inr ⟨_, rfl⟩
  · cases h
    exact .inr ⟨_, rfl⟩
  · cases h
    exact .inr ⟨_, rfl⟩
  · cases h
    exact .inr ⟨_, rfl⟩
  · cases h
    exact .inr ⟨_, rfl⟩

theorem evaluate_capture_table (cfg : EvaluatorConfig) (df : DataFrame) (idx : Int) :
    TableStep idx df (evaluate_capture cfg df idx).2.1 ∧
    (∀ e, (evaluate_capture cfg df idx).1 = .error e →
      (∀ k, e ≠ PyError.keyError k) → (∀ m, e ≠ PyError.typeError m) →
      (evaluate_capture cfg df idx).2.1 = df) := by
  unfold evaluate_capture
  split
  · exact ⟨tableStep_refl idx df, fun e _ _ _ => rfl⟩
  · split
    · exact ⟨tableStep_refl idx df, fun e _ _ _ => rfl⟩
    · split
      · exact ⟨tableStep_refl idx df, fun e _ _ _ => rfl⟩
      · split
        · next e' heq =>
          dsimp only
          constructor
          · apply tableStep_locSet (tableStep_refl idx df)
          · intro e hre hk hm
            cases hre
            rcases pySubscript_error heq with h | ⟨m, h⟩
            · exact absurd h (hk "emotion")
            · exact absurd h (hm m)
        · split
          · next e' heq =>
            dsimp only
            constructor
            · apply tableStep_locSet (tableStep_locSet (tableStep_refl idx df) _)
            · intro e hre hk hm
              cases hre
              rcases pySubscript_error heq with h | ⟨m, h⟩
              · exact absurd h (hk "key_visual_cues")
              · exact absurd h (hm m)
          · dsimp only
            split
            · dsimp only
              constructor
              · apply tableStep_locSet (tableStep_locSet (tableStep_locSet
                  (tableStep_locSet (tableStep_locSet (tableStep_locSet
                    (tableStep_refl idx df) _) _) _) _) _)
              · exact fun e hre _ _ => Except.noConfusion hre
            · dsimp only
              constructor
              · apply tableStep_locSet (tableStep_locSet (tableStep_locSet
                  (tableStep_locSet (tableStep_locSet (tableStep_locSet
                    (tableStep_refl idx df) _) _) _) _) _)
              · intro e hre hk hm
                cases hre
                exact absurd rfl (hk (toString idx))

/-! ### Helper lemmas about the requests evaluate_capture issues -/

theorem _process_capture_reqs (cfg : EvaluatorConfig) (p : String) :
    (_process_capture cfg p = (.error (.fileNotFoundError p), []) ∧
      fsLookup cfg.fs p = none) ∨
    (∃ bytes, fsLookup cfg.fs p = some bytes ∧
      (_process_capture cfg p).2 =
        [{ model := cfg.model, temperature := 1, promptText := _prompt,
           imageUrl := imageUrlOf (b64encode bytes),
           schemaRequired := outputSchemaRequired }]) := by
  unfold _process_capture _encode_image
  cases hfs : fsLookup cfg.fs p with
  | none => exact .inl ⟨rfl, rfl⟩
  | some bytes =>
    refine .inr ⟨bytes, rfl, ?_⟩
    dsimp only
    split <;> rfl

theorem _process_capture_reqs_len (cfg : EvaluatorConfig) (p : String) :
    (_process_capture cfg p).2.length ≤ 1 := by
  rcases _process_capture_reqs cfg p with ⟨h, _⟩ | ⟨bytes, _, h⟩
  · simp [h]
  · simp [h]

theorem evaluate_capture_reqs_len (cfg : EvaluatorConfig) (df : DataFrame) (idx : Int) :
    (evaluate_capture cfg df idx).2.2.length ≤ 1 := by
  unfold evaluate_capture
  split
  · exact Nat.zero_le 1
  · next rec hcap =>
    have hh := _process_capture_reqs_len cfg (cfg.captures_path ++ "/" ++ rec.path)
    split
    · next e reqs heq =>
      rw [heq] at hh
      exact hh
    · next content tokens reqs heq =>
      rw [heq] at hh
      dsimp only at hh ⊢
      split
      · exact hh
      · split
        · exact hh
        · split
          · exact hh
          · split <;> exact hh

theorem eval_requests_spec {cfg : EvaluatorConfig} {df : DataFrame} {idx : Int}
    {req : CompletionRequest} (h : req ∈ (evaluate_capture cfg df idx).2.2) :
    ∃ rec bytes, capturesLoc cfg.df_captures idx = .ok rec ∧
      fsLookup cfg.fs (cfg.captures_path ++ "/" ++ rec.path) = some bytes ∧
      req = { model := cfg.model, temperature := 1, promptText := _prompt,
              imageUrl := imageUrlOf (b64encode bytes),
              schemaRequired := outputSchemaRequired } := by
  unfold evaluate_capture at h
  split at h
  · exact absurd h (List.not_mem_nil req)
  · next rec hcap =>
    have hmem : ∃ reqs, (_process_capture cfg (cfg.captures_path ++ "/" ++ rec.path)).2 = reqs ∧ req ∈ reqs := by
      split at h
      · next e reqs heq => exact ⟨reqs, by rw [heq], h⟩
      · next content tokens reqs heq =>
        refine ⟨reqs, by rw [heq], ?_⟩
        dsimp only at h
        split at h
        · exact h
        · split at h
          · exact h
          · split at h
            · exact h
            · split at h <;> exact h
    obtain ⟨reqs, hreqs, hr⟩ := hmem
    rcases _process_capture_reqs cfg (cfg.captures_path ++ "/" ++ rec.path) with
      ⟨hpair, _⟩ | ⟨bytes, hfs, h2⟩
    · rw [hpair] at hreqs
      rw [← hreqs] at hr
      exact absurd hr (List.not_mem_nil req)
    · rw [hreqs] at h2
      rw [h2] at hr
      exact ⟨rec, bytes, hcap, hfs, List.mem_singleton.mp hr⟩

theorem evaluate_capture_file_missing (cfg : EvaluatorConfig) (df : DataFrame)
    (idx : Int) (rec : CaptureRec)
    (hcap : capturesLoc cfg.df_captures idx = .ok rec)
    (hfs : fsLookup cfg.fs (cfg.captures_path ++ "/" ++ rec.path) = none) :
    evaluate_capture cfg df idx =
      (.error (.fileNotFoundError (cfg.captures_path ++ "/" ++ rec.path)), df, []) := by
  unfold evaluate_capture
  rw [hcap]
  dsimp only
  rcases _process_capture_reqs cfg (cfg.captures_path ++ "/" ++ rec.path) with
    ⟨hpair, _⟩ | ⟨bytes, hfs2, _⟩
  · rw [hpair]
  · rw [hfs] at hfs2
    exact Option.noConfusion hfs2

/-! ### Helper lemmas about save_to_db and driver traces -/

theorem normalizeTimestampCol_eq (df : DataFrame) : normalizeTimestampCol df = df := by
  unfold normalizeTimestampCol astype_datetime64
  have h : (fun r : Int × EvalRow =>
      (r.1, { r.2 with timestamp := r.2.timestamp })) = id := by
    funext r
    rfl
  rw [h, List.map_id]

theorem save_to_db_table_id (df : DataFrame) (db : Database) (t : String)
    (r : IfExists) : (save_to_db df db t r).1 = df := by
  unfold save_to_db
  dsimp only
  exact normalizeTimestampCol_eq df

theorem evalIndices_cons_eval (cfg : EvaluatorConfig) (i : Int) (ops : List DriverOp) :
    evalIndices (.evalOp cfg i :: ops) = i :: evalIndices ops := rfl

theorem evalIndices_cons_save (db : Database) (t : String) (r : IfExists)
    (ops : List DriverOp) :
    evalIndices (.saveOp db t r :: ops) = evalIndices ops := rfl

theorem runOps_keys_aux (ops : List DriverOp) :
    ∀ df : DataFrame,
      (∀ x ∈ (List.foldl stepDf df ops).map Prod.fst,
          x ∈ df.map Prod.fst ∨ x ∈ evalIndices ops) ∧
      ((df.map Prod.fst).Nodup → ((List.foldl stepDf df ops).map Prod.fst).Nodup) := by
  induction ops with
  | nil =>
    intro df
    exact ⟨fun x hx => .inl hx, id⟩
  | cons op ops ih =>
    intro df
    cases op with
    | evalOp cfg i =>
      rw [List.foldl_cons]
      obtain ⟨hsub, hnd, -, -⟩ := (evaluate_capture_table cfg df i).1
      have h2 := ih (stepDf df (.evalOp cfg i))
      constructor
      · intro x hx
        rcases h2.1 x hx with hx | hx
        · rcases hsub x hx with hl | hr
          · exact .inl hl
          · right
            rw [evalIndices_cons_eval, hr]
            exact List.mem_cons_self i _
        · right
          rw [evalIndices_cons_eval]
          exact List.mem_cons_of_mem i hx
      · exact fun h0 => h2.2 (hnd h0)
    | saveOp db t r =>
      rw [List.foldl_cons]
      have hid : stepDf df (.saveOp db t r) = df := save_to_db_table_id df db t r
      rw [hid, evalIndices_cons_save]
      exact ih df

/-! ### Claim theorems -/

set_option maxRecDepth 8000 in
/-- C1, counterexample: with a stubbed endpoint returning JSON that lacks
the required `emotion` field, `evaluate_capture` fails with a KeyError but
the results table is NOT left unchanged: starting from an empty table, the
failing call leaves one (partial) row, because the `expected_emotion`
write on the line above already ran.  Likewise, a stubbed endpoint
returning the valid JSON document "5" — not an object — makes the call
fail with a TypeError, again after that write has grown the table. -/
theorem c1_counterexample :
    (evaluate_capture cfgMissingField [] 0).1 = .error (.keyError "emotion") ∧
    ((evaluate_capture cfgMissingField [] 0).2.1).length = 1 ∧
    (evaluate_capture cfgMissingField [] 0).2.1 =
      [(0, { expected_emotion := some "happiness", identified_emotion := none,
             key_visual_cues := none, tokens_used := none, evaluator := none,
             timestamp := none })] ∧
    (evaluate_capture cfgNotObject [] 0).1 =
      .error (.typeError "'int' object is not subscriptable") ∧
    ((evaluate_capture cfgNotObject [] 0).2.1).length = 1 :=
  ⟨rfl, rfl, rfl, rfl, rfl⟩

/-- C1, amended: when `evaluate_capture` fails before the subscripting of
the decoded response — the image file missing, the completion call
erroring, or the content failing to parse as JSON — the failure propagates
and the results table is left unchanged; when the content parses but the
subscript fails (a KeyError for a missing required field, a TypeError for
a valid JSON document that is not an object), the failure still propagates
but the `expected_emotion` write of the preceding line has already run, so
a partial row at that index may have been written and the row count grows
by at most one. -/
theorem c1_failure_effect (cfg : EvaluatorConfig) (df : DataFrame) (idx : Int) :
    (∀ e, (evaluate_capture cfg df idx).1 = .error e →
        (∀ k, e ≠ PyError.keyError k) → (∀ m, e ≠ PyError.typeError m) →
        (evaluate_capture cfg df idx).2.1 = df) ∧
    ((evaluate_capture cfg df idx).2.1).length ≤ df.length + 1 :=
  ⟨(evaluate_capture_table cfg df idx).2,
   (evaluate_capture_table cfg df idx).1.2.2.1⟩

/-- C1 witness: at the non-JSON stub the failing call leaves the empty
table empty. -/
theorem c1_failure_effect_witness :
    (evaluate_capture cfgNotJson [] 0).2.1 = [] ∧
    ((evaluate_capture cfgNotJson [] 0).2.1).length ≤ ([] : DataFrame).length + 1 :=
  ⟨(c1_failure_effect cfgNotJson [] 0).1 (.jsonDecodeError "oops not json") rfl
      (fun _ h => PyError.noConfusion h) (fun _ h => PyError.noConfusion h),
   (c1_failure_effect cfgNotJson [] 0).2⟩

/-- C2: over every sequence of driver operations starting from the empty
results table, the rows of the table have pairwise-distinct indices, every
row's index was the argument of some prior evaluate operation in the trace,
and `save_to_db` returns the results table unchanged (its in-place
timestamp cast preserves every cell's value). -/
theorem c2_rows_come_from_evaluate (ops : List DriverOp) :
    ((runOps ops).map Prod.fst).Nodup ∧
    (∀ p ∈ runOps ops, p.1 ∈ evalIndices ops) ∧
    (∀ (df : DataFrame) (db : Database) (t : String) (r : IfExists),
        (save_to_db df db t r).1 = df) := by
  refine ⟨?_, ?_, fun df db t r => save_to_db_table_id df db t r⟩
  · exact (runOps_keys_aux ops []).2 List.nodup_nil
  · intro p hp
    rcases (runOps_keys_aux ops []).1 p.1 (List.mem_map_of_mem Prod.fst hp) with h | h
    · exact absurd h (List.not_mem_nil p.1)
    · exact h

set_option maxRecDepth 8000 in
/-- C2 witness: the single row produced by one successful evaluation has
index 0, which is indeed the index of the one evaluate operation in the
trace; and `save_to_db` leaves a concrete table unchanged. -/
theorem c2_rows_come_from_evaluate_witness :
    (0 : Int) ∈ evalIndices [DriverOp.evalOp cfgJsonOK 0] ∧
    (save_to_db dfNewRow [] "evaluations" IfExists.append).1 = dfNewRow :=
  ⟨(c2_rows_come_from_evaluate [DriverOp.evalOp cfgJsonOK 0]).2.1 (0, rowOK)
      (by decide),
   (c2_rows_come_from_evaluate []).2.2 dfNewRow [] "evaluations" .append⟩

set_option maxRecDepth 8000 in
/-- C3, counterexample: the prompt the code sends with a completion request
is the module constant `_prompt`, and that string is NOT character for
character the text the claim quotes: the triple-quoted source string
carries a leading newline, a trailing newline, and a space-plus-newline
between the two sentences where the claim has a single space. -/
theorem c3_counterexample :
    (evaluate_capture cfgJsonOK [] 0).2.2.map (fun r => r.promptText) = [_prompt] ∧
    _prompt ≠ specPromptText :=
  ⟨rfl, by decide⟩

set_option maxRecDepth 8000 in
/-- C3, amended: every completion request carries exactly the fixed string
`_prompt`, which is the claim's quoted text up to whitespace: it equals the
claimed sentences joined by a space-plus-newline instead of a space and
wrapped in a leading and a trailing newline. -/
theorem c3_prompt_fixed_modulo_whitespace :
    _prompt = "\n" ++ promptSentenceA ++ " \n" ++ promptSentenceB ++ "\n" ∧
    specPromptText = promptSentenceA ++ " " ++ promptSentenceB ∧
    (∀ (cfg : EvaluatorConfig) (df : DataFrame) (idx : Int)
        (req : CompletionRequest),
        req ∈ (evaluate_capture cfg df idx).2.2 → req.promptText = _prompt) := by
  refine ⟨by decide, by decide, ?_⟩
  intro cfg df idx req h
  obtain ⟨rec, bytes, -, -, rfl⟩ := eval_requests_spec h
  rfl

set_option maxRecDepth 8000 in
/-- C3 witness: the request issued under the concrete configuration carries
`_prompt`. -/
theorem c3_prompt_fixed_modulo_whitespace_witness :
    reqOK.promptText = _prompt :=
  c3_prompt_fixed_modulo_whitespace.2.2 cfgJsonOK [] 0 reqOK (by decide)

/-- C4, counterexample: the failure `evaluate_capture` surfaces for a
missing image file is a `FileNotFoundError`, not an error whose type is
named `EvaluationError` (or `StorageError`); the repository defines no such
exception classes. -/
theorem c4_counterexample :
    ∃ e, (evaluate_capture cfgMissingFile [] 0).1 = Except.error e ∧
      PyError.typeName e = "FileNotFoundError" ∧
      PyError.typeName e ≠ "EvaluationError" ∧
      PyError.typeName e ≠ "StorageError" :=
  ⟨.fileNotFoundError "caps/img.png", rfl, rfl, by decide, by decide⟩

/-- C4, amended: failures do surface to the caller — a missing image makes
`evaluate_capture` return the `FileNotFoundError` for the resolved path,
and loading a nonexistent table makes `load_dataframe` return the
pandas `DatabaseError` that wraps the cursor's failure, with the message
"Execution failed on sql '...': no such table: ..." — but what callers
observe are the library exception types (`KeyError`, `TypeError`,
`FileNotFoundError`, `JSONDecodeError`, API errors, `DatabaseError`,
`OperationalError`, `ValueError`), never wrapper types named
`EvaluationError` or `StorageError`. -/
theorem c4_errors_surface_as_library_types :
    (∀ (cfg : EvaluatorConfig) (df : DataFrame) (idx : Int) (rec : CaptureRec),
        capturesLoc cfg.df_captures idx = .ok rec →
        fsLookup cfg.fs (cfg.captures_path ++ "/" ++ rec.path) = none →
        (evaluate_capture cfg df idx).1 =
          .error (.fileNotFoundError (cfg.captures_path ++ "/" ++ rec.path))) ∧
    (∀ (db : Database) (t c : String), dbGet db t = none →
        (load_dataframe db t c).2 =
          .error (.databaseError
            ("Execution failed on sql '" ++ loadQuery t ++ "': no such table: " ++ t))) ∧
    (∀ e : PyError, PyError.typeName e ∈
      ["KeyError", "TypeError", "FileNotFoundError", "JSONDecodeError", "APIError",
       "DatabaseError", "OperationalError", "ValueError"]) := by
  refine ⟨?_, ?_, ?_⟩
  · intro cfg df idx rec hcap hfs
    rw [evaluate_capture_file_missing cfg df idx rec hcap hfs]
  · intro db t c h
    simp [load_dataframe, read_sql, h]
  · intro e
    cases e <;> simp [PyError.typeName]

/-- C4 witness: the concrete missing-file evaluation and the concrete
missing-table load return those library errors. -/
theorem c4_errors_surface_as_library_types_witness :
    (evaluate_capture cfgMissingFile [] 0).1 =
      .error (.fileNotFoundError ("caps" ++ "/" ++ "img.png")) ∧
    (load_dataframe [] "evaluations" "id").2 =
      .error (.databaseError
        ("Execution failed on sql '" ++ loadQuery "evaluations" ++
          "': no such table: " ++ "evaluations")) :=
  ⟨c4_errors_surface_as_library_types.1 cfgMissingFile [] 0
      ⟨"img.png", "happiness"⟩ rfl rfl,
   c4_errors_surface_as_library_types.2.1 [] "evaluations" "id" rfl⟩

/-- C5, counterexample: the connection-event trace of a successful
`save_dataframe` (and of every other operation, on either exit path)
contains no close event: `with sqlite3.connect(...)` commits or rolls back,
but does not close the connection before the operation returns. -/
theorem c5_counterexample :
    ConnEvent.connClosed ∉ save_dataframe_events false ∧
    ConnEvent.connClosed ∉ save_dataframe_events true ∧
    ConnEvent.connClosed ∉ load_dataframe_events false ∧
    ConnEvent.connClosed ∉ load_dataframe_events true ∧
    ConnEvent.connClosed ∉ list_tables_events := by
  decide

/-- C5, amended: each operation opens its own connection within the
invocation (every trace begins with an open event, so none is retained
between operations) and ends the transaction on every exit path (a commit
on success, a rollback on failure), but the connection is never explicitly
closed before the operation returns — it is released only when the local
variable is finalized afterwards. -/
theorem c5_connection_scoped_not_closed :
    (∀ b, (save_dataframe_events b).head? = some ConnEvent.connOpened ∧
        (ConnEvent.committed ∈ save_dataframe_events b ∨
         ConnEvent.rolledBack ∈ save_dataframe_events b) ∧
        ConnEvent.connClosed ∉ save_dataframe_events b) ∧
    (∀ b, (load_dataframe_events b).head? = some ConnEvent.connOpened ∧
        (ConnEvent.committed ∈ load_dataframe_events b ∨
         ConnEvent.rolledBack ∈ load_dataframe_events b) ∧
        ConnEvent.connClosed ∉ load_dataframe_events b) ∧
    (list_tables_events.head? = some ConnEvent.connOpened ∧
     ConnEvent.committed ∈ list_tables_events ∧
     ConnEvent.connClosed ∉ list_tables_events) := by
  decide

/-- C7: an evaluation whose capture file is missing under the captures root
fails with the FileNotFoundError before any completion request is issued
(the request list is empty), and every invocation issues at most one
completion request. -/
theorem c7_no_request_on_missing_file (cfg : EvaluatorConfig) (df : DataFrame)
    (idx : Int) :
    (∀ rec, capturesLoc cfg.df_captures idx = .ok rec →
        fsLookup cfg.fs (cfg.captures_path ++ "/" ++ rec.path) = none →
        (evaluate_capture cfg df idx).2.2 = [] ∧
        (evaluate_capture cfg df idx).1 =
          .error (.fileNotFoundError (cfg.captures_path ++ "/" ++ rec.path))) ∧
    (evaluate_capture cfg df idx).2.2.length ≤ 1 := by
  constructor
  · intro rec hcap hfs
    rw [evaluate_capture_file_missing cfg df idx rec hcap hfs]
    exact ⟨rfl, rfl⟩
  · exact evaluate_capture_reqs_len cfg df idx

/-- C7 witness: under the concrete missing-file configuration, the call
count stays 0 and the call fails. -/
theorem c7_no_request_on_missing_file_witness :
    (evaluate_capture cfgMissingFile [] 0).2.2 = [] ∧
    (evaluate_capture cfgMissingFile [] 0).1 =
      .error (.fileNotFoundError ("caps" ++ "/" ++ "img.png")) :=
  (c7_no_request_on_missing_file cfgMissingFile [] 0).1
    ⟨"img.png", "happiness"⟩ rfl rfl

/-- C8: the SQL statement `load_dataframe` executes is the plain
concatenation "SELECT * FROM " ++ table_name — no quoting, escaping or
validation — so a table name containing SQL syntax changes the executed
statement text verbatim. -/
theorem c8_load_query_is_interpolation :
    (∀ (db : Database) (t c : String),
        (load_dataframe db t c).1 = "SELECT * FROM " ++ t) ∧
    (∀ t, loadQuery t = "SELECT * FROM " ++ t) ∧
    (load_dataframe [] "evaluations; DROP TABLE users" "id").1 =
      "SELECT * FROM evaluations; DROP TABLE users" :=
  ⟨fun _ _ _ => rfl, fun _ => rfl, by decide⟩

/-- C9: every completion request `evaluate_capture` issues carries the
capture file's bytes as an inline data URI built by prepending the
hardcoded prefix "data:image/jpeg;base64," to the base64 encoding of
whatever bytes the file holds — no format detection is involved. -/
theorem c9_hardcoded_jpeg_mime (cfg : EvaluatorConfig) (df : DataFrame)
    (idx : Int) (req : CompletionRequest)
    (h : req ∈ (evaluate_capture cfg df idx).2.2) :
    ∃ rec bytes, capturesLoc cfg.df_captures idx = .ok rec ∧
      fsLookup cfg.fs (cfg.captures_path ++ "/" ++ rec.path) = some bytes ∧
      req.imageUrl = "data:image/jpeg;base64," ++ b64encode bytes := by
  obtain ⟨rec, bytes, h1, h2, rfl⟩ := eval_requests_spec h
  exact ⟨rec, bytes, h1, h2, rfl⟩

set_option maxRecDepth 8000 in
/-- C9 witness: the concrete issued request's URL is the JPEG prefix plus
the base64 of the file's bytes (which are not JPEG data). -/
theorem c9_hardcoded_jpeg_mime_witness :
    ∃ rec bytes, capturesLoc cfgJsonOK.df_captures 0 = .ok rec ∧
      fsLookup cfgJsonOK.fs (cfgJsonOK.captures_path ++ "/" ++ rec.path) = some bytes ∧
      reqOK.imageUrl = "data:image/jpeg;base64," ++ b64encode bytes :=
  c9_hardcoded_jpeg_mime cfgJsonOK [] 0 reqOK (by decide)

/-- C10: the Persistence Adapter's `save_dataframe` defaults its conflict
policy to replace while the driver's `save_to_db` defaults to append, and
on a pre-existing one-row `evaluations` table the two defaults behave
differently: the adapter default leaves 1 row (drop and recreate), the
driver default leaves 2 (old plus new). -/
theorem c10_different_default_policies :
    save_dataframe_default_if_exists = IfExists.replace ∧
    save_to_db_default_override_rule = IfExists.append ∧
    save_dataframe_default_if_exists ≠ save_to_db_default_override_rule ∧
    savedRowCount (save_dataframe preDbOneRow (reset_index dfNewRow)
      "evaluations" save_dataframe_default_if_exists) = some 1 ∧
    savedRowCount ((save_to_db dfNewRow preDbOneRow "evaluations"
      save_to_db_default_override_rule).2) = some 2 :=
  ⟨rfl, rfl, by decide, rfl, rfl⟩

/-! ### Helper lemmas for the save/load round trip -/

theorem inferColType_int {col : List PdValue} {n : Int}
    (hmem : PdValue.int n ∈ col)
    (h : ∀ v ∈ col, (∃ m, v = PdValue.int m) ∨ v = PdValue.nan) :
    inferColType col = .integer := by
  unfold inferColType
  dsimp only
  have hmf : PdValue.int n ∈ col.filter (fun v => !(v == PdValue.nan)) :=
    List.mem_filter.mpr ⟨hmem, rfl⟩
  have hne : ¬ (col.filter (fun v => !(v == PdValue.nan))).isEmpty = true := by
    intro hemp
    rw [List.isEmpty_iff] at hemp
    rw [hemp] at hmf
    exact List.not_mem_nil _ hmf
  rw [if_neg hne]
  have hall : (col.filter (fun v => !(v == PdValue.nan))).all
      (fun v => match v with | .int _ => true | _ => false) = true := by
    rw [List.all_eq_true]
    intro v hv
    rcases h v (List.mem_filter.mp hv).1 with ⟨m, rfl⟩ | rfl
    · rfl
    · have hcond := (List.mem_filter.mp hv).2
      exact absurd hcond (by decide)
  rw [if_pos hall]

theorem testid_col_int (df : DataFrame) :
    ∀ v ∈ df.map (fun q : Int × EvalRow => PdValue.int q.1),
      (∃ m, v = PdValue.int m) ∨ v = PdValue.nan := by
  intro v hv
  rcases List.mem_map.mp hv with ⟨q, -, rfl⟩
  exact .inl ⟨q.1, rfl⟩

theorem tokens_col_int_or_nan (df : DataFrame) :
    ∀ v ∈ df.map (fun q : Int × EvalRow => optInt q.2.tokens_used),
      (∃ m, v = PdValue.int m) ∨ v = PdValue.nan := by
  intro v hv
  rcases List.mem_map.mp hv with ⟨q, -, rfl⟩
  cases q.2.tokens_used with
  | none => exact .inr rfl
  | some m => exact .inl ⟨m, rfl⟩

theorem readCell_store_optStr (ty : SQLColType) (o : Option String) :
    readCell (storeCell ty (optStr o)) = optStr o := by
  cases o <;> rfl

theorem readCell_store_optTs (ty : SQLColType) (o : Option Nat) :
    readCell (storeCell ty (optTs o)) =
      (match o with
       | some t => PdValue.str (timestampText t)
       | none => PdValue.nan) := by
  cases o <;> rfl

theorem dbGet_singleton (name : String) (T : SQLTable) :
    dbGet [(name, T)] name = some T := by
  simp [dbGet]

theorem read_sql_singleton (name : String) (T : SQLTable) :
    read_sql [(name, T)] name =
      .ok { columns := T.columns, rows := T.rows.map (fun r => r.map readCell) } := by
  unfold read_sql
  rw [dbGet_singleton]

theorem frameToTable_reset_index (df : DataFrame) :
    frameToTable (reset_index df) =
      { columns := "test_id" :: evalColumns
        rows := df.map (fun p =>
          [storeCell (inferColType (df.map (fun q => PdValue.int q.1))) (PdValue.int p.1),
           storeCell (inferColType (df.map (fun q => optStr q.2.expected_emotion))) (optStr p.2.expected_emotion),
           storeCell (inferColType (df.map (fun q => optStr q.2.identified_emotion))) (optStr p.2.identified_emotion),
           storeCell (inferColType (df.map (fun q => optStr q.2.key_visual_cues))) (optStr p.2.key_visual_cues),
           storeCell (inferColType (df.map (fun q => optInt q.2.tokens_used))) (optInt p.2.tokens_used),
           storeCell (inferColType (df.map (fun q => optStr q.2.evaluator))) (optStr p.2.evaluator),
           storeCell (inferColType (df.map (fun q => optTs q.2.timestamp))) (optTs p.2.timestamp)]) } := by
  have hcol0 : colOf (reset_index df) 0 = df.map (fun q => PdValue.int q.1) := by
    unfold colOf reset_index
    rw [List.map_map]
    rfl
  have hcol1 : colOf (reset_index df) 1 = df.map (fun q => optStr q.2.expected_emotion) := by
    unfold colOf reset_index
    rw [List.map_map]
    rfl
  have hcol2 : colOf (reset_index df) 2 = df.map (fun q => optStr q.2.identified_emotion) := by
    unfold colOf reset_index
    rw [List.map_map]
    rfl
  have hcol3 : colOf (reset_index df) 3 = df.map (fun q => optStr q.2.key_visual_cues) := by
    unfold colOf reset_index
    rw [List.map_map]
    rfl
  have hcol4 : colOf (reset_index df) 4 = df.map (fun q => optInt q.2.tokens_used) := by
    unfold colOf reset_index
    rw [List.map_map]
    rfl
  have hcol5 : colOf (reset_index df) 5 = df.map (fun q => optStr q.2.evaluator) := by
    unfold colOf reset_index
    rw [List.map_map]
    rfl
  have hcol6 : colOf (reset_index df) 6 = df.map (fun q => optTs q.2.timestamp) := by
    unfold colOf reset_index
    rw [List.map_map]
    rfl
  unfold frameToTable
  dsimp only
  rw [show List.range (reset_index df).columns.length = [0, 1, 2, 3, 4, 5, 6] from rfl]
  simp only [List.map_cons, List.map_nil]
  rw [hcol0, hcol1, hcol2, hcol3, hcol4, hcol5, hcol6]
  congr 1
  rw [show (reset_index df).rows = df.map (fun p => PdValue.int p.1 :: rowCells p.2) from rfl,
      List.map_map]
  refine List.map_congr_left ?_
  intro p _
  rfl

/-- C6: writing any results table through `save_to_db` into a fresh
database and reading it back with `load_dataframe` on the matching
row-identifier column `test_id` returns the table unchanged column for
column and row for row — string cells, integer token counts and missing
cells round-trip exactly, and only the `timestamp` column comes back in
its storage-normalized textual form. -/
theorem c6_save_load_round_trip (df : DataFrame) :
    ∃ db, (save_to_db df [] "evaluations" IfExists.replace).2 = .ok db ∧
      (load_dataframe db "evaluations" "test_id").2 = .ok
        { indexName := "test_id"
          indexVals := df.map (fun p => PdValue.int p.1)
          columns := evalColumns
          rows := df.map (fun p => loadedRowOf p.2) } := by
  refine ⟨[("evaluations", frameToTable (reset_index df))], ?_, ?_⟩
  · unfold save_to_db
    dsimp only
    rw [normalizeTimestampCol_eq]
    rfl
  · unfold load_dataframe
    dsimp only
    rw [frameToTable_reset_index, read_sql_singleton]
    dsimp only
    unfold set_index
    rw [show ("test_id" :: evalColumns).findIdx? (fun c => c == "test_id") = some 0 from rfl]
    dsimp only
    congr 1
    congr 1
    · rw [List.map_map, List.map_map]
      refine List.map_congr_left ?_
      intro p hp
      show readCell (storeCell (inferColType (df.map (fun q => PdValue.int q.1)))
        (PdValue.int p.1)) = PdValue.int p.1
      rw [inferColType_int (List.mem_map_of_mem (fun q : Int × EvalRow => PdValue.int q.1) hp) (testid_col_int df)]
      rfl
    · rw [List.map_map, List.map_map]
      refine List.map_congr_left ?_
      intro p hp
      show [readCell (storeCell (inferColType (df.map (fun q => optStr q.2.expected_emotion))) (optStr p.2.expected_emotion)),
            readCell (storeCell (inferColType (df.map (fun q => optStr q.2.identified_emotion))) (optStr p.2.identified_emotion)),
            readCell (storeCell (inferColType (df.map (fun q => optStr q.2.key_visual_cues))) (optStr p.2.key_visual_cues)),
            readCell (storeCell (inferColType (df.map (fun q => optInt q.2.tokens_used))) (optInt p.2.tokens_used)),
            readCell (storeCell (inferColType (df.map (fun q => optStr q.2.evaluator))) (optStr p.2.evaluator)),
            readCell (storeCell (inferColType (df.map (fun q => optTs q.2.timestamp))) (optTs p.2.timestamp))] =
        loadedRowOf p.2
      unfold loadedRowOf
      simp only [readCell_store_optStr, readCell_store_optTs, List.cons.injEq, and_true,
        true_and]
      cases h4 : p.2.tokens_used with
      | none => rfl
      | some m =>
        rw [inferColType_int
          (show PdValue.int m ∈ df.map (fun q : Int × EvalRow => optInt q.2.tokens_used) from
            List.mem_map.mpr ⟨p, hp, by rw [h4]; rfl⟩)
          (tokens_col_int_or_nan df)]
        rfl
